import Mathlib

/-!
Shallow embedding of the entro-svelte tracker bridge (src/src/index.ts).

JavaScript values appearing in payloads are modelled by `JsVal`; JS objects
are association lists with JS literal/spread semantics (`oset`, `spread`).
Module-level mutable state (`initialized`, `currentOptions`, `currentTag`,
the `isLoaded` / `isReady` stores and the document's script elements) is
collected in `BridgeState`; functions that mutate it take and return the
state explicitly. The polling loop of `waitForTracker` is modelled with a
fuel parameter standing for the page lifetime: tick `i` is the attempt made
at time `RETRY_DELAY_MS * i` milliseconds, and exhausting the fuel models
the page unloading before the tracker appeared.
-/

namespace EntroSvelte

/-- A JavaScript value as it occurs in tracking payloads. `vUndef` models
`undefined`; numbers are modelled as rationals (they are only passed
through, never computed with). -/
inductive JsVal : Type where
  | vUndef : JsVal
  | vBool : Bool → JsVal
  | vNum : ℚ → JsVal
  | vStr : String → JsVal
  | vObj : List (String × JsVal) → JsVal

/-- A JavaScript object: keys in insertion order. -/
abbrev Obj := List (String × JsVal)

/-- Setting a property on a JS object: an existing key keeps its position and
is overwritten, a new key is appended (JS property-order semantics). -/
def oset (o : Obj) (k : String) (v : JsVal) : Obj :=
  if o.any (fun p => p.1 == k) then
    o.map (fun p => if p.1 == k then (k, v) else p)
  else o ++ [(k, v)]

/-- JS spread `\x7b...a, ...b\x7d`: start from `a`, set each property of `b`
in order. -/
def spread (a b : Obj) : Obj :=
  b.foldl (fun acc p => oset acc p.1 p.2) a

/-- Read a property: the value of the last binding for the key. -/
def getK (o : Obj) (k : String) : Option JsVal :=
  (o.reverse.find? (fun p => p.1 == k)).map Prod.snd

/-- First-defined alternative on optional values. -/
def oalt (x y : Option JsVal) : Option JsVal :=
  match x with
  | some v => some v
  | none => y

/-- JS truthiness of an optional string (`undefined` and `""` are falsy). -/
def strTruthy : Option String → Bool
  | some t => !(t == "")
  | none => false

def DEFAULT_HOST : String := "https://cloud.entrolytics.click"

def SCRIPT_ID : String := "entrolytics-script"

/-- The fixed retry delay of `waitForTracker`, in milliseconds. -/
def RETRY_DELAY_MS : Nat := 100

/-- The options object accepted by `initEntrolytics`. Optional fields are
`none` when absent; defaults are applied inside `initEntrolytics` exactly
where the source destructures them. `beforeSend` returns `none` for a JS
`null` result. -/
structure EntrolyticsOptions where
  websiteId : String
  host : Option String := none
  autoTrack : Option Bool := none
  respectDnt : Option Bool := none
  domains : Option (List String) := none
  useEdgeRuntime : Option Bool := none
  tag : Option String := none
  excludeSearch : Option Bool := none
  excludeHash : Option Bool := none
  beforeSend : Option (String → JsVal → Option JsVal) := none

/-- The script element built and appended by `initEntrolytics`: id, src,
defer flag and the data attributes actually written. -/
structure ScriptEl where
  elemId : String
  src : String
  deferred : Bool
  dataWebsiteId : String
  dataAutoTrack : Option String
  dataDoNotTrack : Option String
  dataDomains : Option String
  dataTag : Option String
  dataExcludeSearch : Option String
  dataExcludeHash : Option String
  deriving DecidableEq

/-- The module-level mutable state of the bridge, together with the document
script elements it can observe and create. -/
structure BridgeState where
  initialized : Bool
  currentOptions : Option EntrolyticsOptions
  currentTag : Option String
  isLoaded : Bool
  isReady : Bool
  scripts : List ScriptEl

/-- The state at module load: flags false, no options, no tag, no script. -/
def initialState : BridgeState :=
  { initialized := false, currentOptions := none, currentTag := none,
    isLoaded := false, isReady := false, scripts := [] }

/-- The script element constructed by `initEntrolytics` (source lines
103-129): src is host (trailing slash stripped) plus the edge or standard
path; data attributes appear only when the option deviates from default. -/
def buildScript (websiteId host : String) (autoTrack respectDnt : Bool)
    (domains : Option (List String)) (useEdgeRuntime : Bool) (tag : Option String)
    (excludeSearch excludeHash : Bool) : ScriptEl :=
  let scriptPath := if useEdgeRuntime then "/script-edge.js" else "/script.js"
  let hostStripped := if host.endsWith "/" then host.dropRight 1 else host
  { elemId := SCRIPT_ID
    src := hostStripped ++ scriptPath
    deferred := true
    dataWebsiteId := websiteId
    dataAutoTrack := if autoTrack then none else some "false"
    dataDoNotTrack := if respectDnt then some "true" else none
    dataDomains :=
      match domains with
      | some ds => if 0 < ds.length then some (String.intercalate "," ds) else none
      | none => none
    dataTag :=
      match tag with
      | some t => if t == "" then none else some t
      | none => none
    dataExcludeSearch := if excludeSearch then some "true" else none
    dataExcludeHash := if excludeHash then some "true" else none }

/-- `initEntrolytics(options)` (source lines 73-137). Returns the new state
and whether a configuration error was thrown. Mirrors the source order:
the `initialized` flag, `currentOptions` and `currentTag` are assigned
BEFORE the `websiteId` validation throws (lines 77-79 vs 93-95). The
script `onload` callback is the separate `scriptOnload` event. -/
def initEntrolytics (browser : Bool) (options : EntrolyticsOptions)
    (s : BridgeState) : BridgeState × Bool :=
  if !browser then (s, false)
  else if s.initialized then (s, false)
  else
    let s1 : BridgeState :=
      { s with initialized := true, currentOptions := some options,
               currentTag := options.tag }
    let websiteId := options.websiteId
    let host := options.host.getD DEFAULT_HOST
    let autoTrack := options.autoTrack.getD true
    let respectDnt := options.respectDnt.getD false
    let useEdgeRuntime := options.useEdgeRuntime.getD true
    let excludeSearch := options.excludeSearch.getD false
    let excludeHash := options.excludeHash.getD false
    if websiteId == "" then (s1, true)
    else if s1.scripts.any (fun e => e.elemId == SCRIPT_ID) then
      ({ s1 with isLoaded := true, isReady := true }, false)
    else
      let script := buildScript websiteId host autoTrack respectDnt
        options.domains useEdgeRuntime options.tag excludeSearch excludeHash
      ({ s1 with scripts := s1.scripts ++ [script] }, false)

/-- The injected script's `onload` callback (source lines 131-134). -/
def scriptOnload (s : BridgeState) : BridgeState :=
  { s with isLoaded := true, isReady := true }

/-- `setTag(tag)` (source lines 274-276). Note: no environment check in the
source; the assignment is unconditional. -/
def setTag (tag : String) (s : BridgeState) : BridgeState :=
  { s with currentTag := some tag }

/-- A call forwarded to the global tracker object: `track(eventName,
eventData)`, the single-object form `track(payload)`, or `identify(data)`. -/
inductive TrackerCall : Type where
  | track2 : String → Option Obj → TrackerCall
  | track0 : Obj → TrackerCall
  | identifyCall : Obj → TrackerCall

/-- The payload object carried by a tracker call. -/
def callPayload : TrackerCall → Obj
  | .track2 _ d => d.getD []
  | .track0 p => p
  | .identifyCall d => d

/-- One attempt sequence of `waitForTracker`'s `tryExecute` (source lines
49-57): at tick `t`, if the tracker is available the callback runs (the
returned list records the delivery tick), otherwise retry at the next tick.
Fuel models the page lifetime. -/
def waitRun (avail : Nat → Bool) : Nat → Nat → List Nat
  | _, 0 => []
  | t, fuel + 1 => if avail t then [t] else waitRun avail (t + 1) fuel

/-- The ticks at which `tryExecute` runs at all (attempts, successful or
not); attempt at tick `i` happens `RETRY_DELAY_MS * i` ms after the call. -/
def attemptTicks (avail : Nat → Bool) : Nat → Nat → List Nat
  | _, 0 => []
  | t, fuel + 1 => t :: (if avail t then [] else attemptTicks avail (t + 1) fuel)

/-- Wall-clock time of attempt `i`, in milliseconds. -/
def attemptTimeMs (i : Nat) : Nat := RETRY_DELAY_MS * i

/-- `waitForTracker(callback)` (source lines 46-58): nothing happens outside
a browser; otherwise the callback's forwarded calls are emitted once per
delivery recorded by `waitRun`. -/
def waitForTracker (browser : Bool) (avail : Nat → Bool) (fuel : Nat)
    (callback : List TrackerCall) : List TrackerCall :=
  if browser then
    (waitRun avail 0 fuel).foldl (fun acc _ => acc ++ callback) []
  else []

/-- The callback body of `trackEvent` (source lines 156-169). The local
`payload` is built, passed through `beforeSend` (a `null` result cancels
the send), and the tag is written onto it — but the call actually forwarded
on line 168 is `track(eventName, eventData)`, the original arguments; the
transformed and tagged `payload` is discarded. -/
def trackEventBody (s : BridgeState) (eventName : String)
    (eventData : Option Obj) : Option TrackerCall :=
  let payload0 : JsVal :=
    .vObj [("name", .vStr eventName),
           ("data", match eventData with | some d => .vObj d | none => .vUndef)]
  let sent : Option JsVal :=
    match s.currentOptions with
    | some opts =>
        match opts.beforeSend with
        | some f => f "event" payload0
        | none => some payload0
    | none => some payload0
  match sent with
  | none => none
  | some p =>
      let _tagged : JsVal :=
        if strTruthy s.currentTag then
          match p with
          | .vObj o => .vObj (oset o "tag" (.vStr (s.currentTag.getD "")))
          | other => other
        else p
      some (.track2 eventName eventData)

/-- The callback body of `trackRevenue` (source lines 196-208):
`eventData = \x7b...data, revenue, currency\x7d`, tag appended when set,
forwarded as `track(eventName, eventData)`. The source gives `currency`
the default `"USD"` at the parameter. -/
def trackRevenueBody (s : BridgeState) (eventName : String) (revenue : ℚ)
    (currency : String) (data : Option Obj) : TrackerCall :=
  let eventData : Obj :=
    oset (oset (data.getD []) "revenue" (.vNum revenue)) "currency" (.vStr currency)
  let eventData :=
    if strTruthy s.currentTag then oset eventData "tag" (.vStr (s.currentTag.getD ""))
    else eventData
  .track2 eventName (some eventData)

/-- The callback body of `trackOutboundLink` (source lines 226-231). -/
def trackOutboundLinkBody (url : String) (data : Option Obj) : TrackerCall :=
  .track2 "outbound-link-click" (some (oset (data.getD []) "url" (.vStr url)))

/-- The callback body of `identify` (source lines 247-249). -/
def identifyBody (data : Obj) : TrackerCall :=
  .identifyCall data

/-- The callback body of `identifyUser` (source lines 266-268):
`identify(\x7b id: userId, ...traits \x7d)`. -/
def identifyUserBody (userId : String) (traits : Option Obj) : TrackerCall :=
  .identifyCall (spread [("id", .vStr userId)] (traits.getD []))

/-- The callback body of `trackPageView` (source lines 283-290): url,
referrer and tag keys are written only when truthy; the (possibly empty)
object is forwarded in the single-argument form `track(payload)`. -/
def trackPageViewBody (s : BridgeState) (url referrer : Option String) :
    TrackerCall :=
  let payload : Obj := []
  let payload :=
    if strTruthy url then oset payload "url" (.vStr (url.getD "")) else payload
  let payload :=
    if strTruthy referrer then oset payload "referrer" (.vStr (referrer.getD ""))
    else payload
  let payload :=
    if strTruthy s.currentTag then oset payload "tag" (.vStr (s.currentTag.getD ""))
    else payload
  .track0 payload

/-- `trackEvent` (source lines 155-170), as the calls it forwards. -/
def trackEvent (browser : Bool) (avail : Nat → Bool) (fuel : Nat)
    (s : BridgeState) (eventName : String) (eventData : Option Obj) :
    List TrackerCall :=
  waitForTracker browser avail fuel ((trackEventBody s eventName eventData).toList)

/-- `trackRevenue` (source lines 190-209), as the calls it forwards. -/
def trackRevenue (browser : Bool) (avail : Nat → Bool) (fuel : Nat)
    (s : BridgeState) (eventName : String) (revenue : ℚ) (currency : String)
    (data : Option Obj) : List TrackerCall :=
  waitForTracker browser avail fuel [trackRevenueBody s eventName revenue currency data]

/-- `trackOutboundLink` (source lines 225-232), as the calls it forwards. -/
def trackOutboundLink (browser : Bool) (avail : Nat → Bool) (fuel : Nat)
    (url : String) (data : Option Obj) : List TrackerCall :=
  waitForTracker browser avail fuel [trackOutboundLinkBody url data]

/-- `identify` (source lines 246-250), as the calls it forwards. -/
def identify (browser : Bool) (avail : Nat → Bool) (fuel : Nat)
    (data : Obj) : List TrackerCall :=
  waitForTracker browser avail fuel [identifyBody data]

/-- `identifyUser` (source lines 265-269), as the calls it forwards. -/
def identifyUser (browser : Bool) (avail : Nat → Bool) (fuel : Nat)
    (userId : String) (traits : Option Obj) : List TrackerCall :=
  waitForTracker browser avail fuel [identifyUserBody userId traits]

/-- `trackPageView` (source lines 282-291), as the calls it forwards. -/
def trackPageView (browser : Bool) (avail : Nat → Bool) (fuel : Nat)
    (s : BridgeState) (url referrer : Option String) : List TrackerCall :=
  waitForTracker browser avail fuel [trackPageViewBody s url referrer]

/-- One step of the subscriber installed by `usePageView` (source lines
375-384): given the `lastPath` cursor and the emitted pathname, returns the
updated cursor and the `trackPageView` argument if one is issued. Mirrors
the source exactly: the guard `lastPath !== ''` is evaluated AFTER
`lastPath = currentPath` has been assigned. -/
def pageViewStep (lastPath pathname : String) : String × Option String :=
  if pathname != lastPath then
    let lastPath2 := pathname
    if lastPath2 != "" then (lastPath2, some pathname) else (lastPath2, none)
  else (lastPath, none)

/-- Run the `usePageView` subscriber over a list of emitted pathnames,
starting from cursor `lastPath`; returns the paths passed to
`trackPageView`, in order. -/
def pageViewRunFrom (lastPath : String) : List String → List String
  | [] => []
  | p :: ps =>
      let r := pageViewStep lastPath p
      r.2.toList ++ pageViewRunFrom r.1 ps

/-- The full watcher from attach (`lastPath` starts as `''`, source line
372). -/
def pageViewRun (emissions : List String) : List String :=
  pageViewRunFrom "" emissions

/-- The state-mutating events of the bridge over a process lifetime:
an `initEntrolytics` call, the script `onload` callback firing, a `setTag`
call. (The forwarding functions read state but never write it.) -/
inductive BridgeEvent : Type where
  | evInit : Bool → EntrolyticsOptions → BridgeEvent
  | evOnload : BridgeEvent
  | evSetTag : String → BridgeEvent

/-- Apply one event to the state. -/
def stepState (s : BridgeState) : BridgeEvent → BridgeState
  | .evInit browser opts => (initEntrolytics browser opts s).1
  | .evOnload => scriptOnload s
  | .evSetTag t => setTag t s

/-- Apply a list of events in order. -/
def runEvents (s : BridgeState) : List BridgeEvent → BridgeState
  | [] => s
  | e :: es => runEvents (stepState s e) es

/-- Count the false-to-true transitions of the `isLoaded` indicator along an
event trace. -/
def flipsFrom (s : BridgeState) : List BridgeEvent → Nat
  | [] => 0
  | e :: es =>
      (if s.isLoaded = false ∧ (stepState s e).isLoaded = true then 1 else 0)
      + flipsFrom (stepState s e) es

/-! ### Object lemmas -/

theorem oalt_none (y : Option JsVal) : oalt none y = y := rfl

theorem oalt_some (v : JsVal) (y : Option JsVal) : oalt (some v) y = some v := rfl

theorem getK_nil (k : String) : getK [] k = none := rfl

theorem find?_cons_true {α : Type} (p : α → Bool) (a : α) (l : List α)
    (h : p a = true) : (a :: l).find? p = some a := by
  simp [List.find?, h]

theorem find?_cons_false {α : Type} (p : α → Bool) (a : α) (l : List α)
    (h : p a = false) : (a :: l).find? p = l.find? p := by
  simp [List.find?, h]

theorem find?_append_single (l : List (String × JsVal)) (p : String × JsVal)
    (pr : String × JsVal → Bool) :
    ((l ++ [p]).find? pr).map Prod.snd
      = oalt ((l.find? pr).map Prod.snd) (if pr p then some p.2 else none) := by
  induction l with
  | nil =>
      by_cases h : pr p = true
      · simp [List.find?, h, oalt]
      · simp [List.find?, h, oalt]
  | cons a t ih =>
      by_cases h : pr a = true
      · simp [List.find?_cons_of_pos _ h, oalt]
      · have h2 : ¬ pr a = true := h
        simp only [List.cons_append, List.find?_cons_of_neg _ h2, ih]

theorem getK_cons (p : String × JsVal) (t : Obj) (k : String) :
    getK (p :: t) k = oalt (getK t k) (if p.1 == k then some p.2 else none) := by
  unfold getK
  rw [List.reverse_cons]
  exact find?_append_single t.reverse p _

theorem find?_map_replace (k : String) (v : JsVal) :
    ∀ l : Obj, l.any (fun p => p.1 == k) = true →
    (l.map (fun p => if p.1 == k then (k, v) else p)).find? (fun p => p.1 == k)
      = some (k, v) := by
  intro l
  induction l with
  | nil => intro h; simp at h
  | cons a t ih =>
      intro h
      simp only [List.map_cons]
      by_cases ha : (a.1 == k) = true
      · rw [if_pos ha]
        rw [find?_cons_true (fun p => p.1 == k) (k, v)
          (List.map (fun p => if p.1 == k then (k, v) else p) t) (by simp)]
      · rw [if_neg ha]
        have ha2 : (a.1 == k) = false := by
          cases hb : (a.1 == k) with
          | true => exact absurd hb ha
          | false => rfl
        have ht : t.any (fun p => p.1 == k) = true := by
          simpa [ha2] using h
        rw [find?_cons_false (fun p => p.1 == k) a
          (List.map (fun p => if p.1 == k then (k, v) else p) t) ha2, ih ht]

theorem find?_map_replace_ne (k k2 : String) (v : JsVal) (hne : k2 ≠ k) :
    ∀ l : Obj,
    (l.map (fun p => if p.1 == k then (k, v) else p)).find? (fun p => p.1 == k2)
      = l.find? (fun p => p.1 == k2) := by
  intro l
  induction l with
  | nil => rfl
  | cons a t ih =>
      simp only [List.map_cons]
      have hkk2 : (k == k2) = false := by
        cases hb : (k == k2) with
        | true => exact absurd (beq_iff_eq.mp hb).symm hne
        | false => rfl
      by_cases ha : (a.1 == k) = true
      · have hak : a.1 = k := beq_iff_eq.mp ha
        have ha2 : (a.1 == k2) = false := by rw [hak]; exact hkk2
        rw [if_pos ha]
        rw [find?_cons_false (fun p => p.1 == k2) (k, v)
          (List.map (fun p => if p.1 == k then (k, v) else p) t) hkk2]
        rw [find?_cons_false (fun p => p.1 == k2) a t ha2, ih]
      · rw [if_neg ha]
        cases ha2 : (a.1 == k2) with
        | true =>
            rw [find?_cons_true (fun p => p.1 == k2) a
              (List.map (fun p => if p.1 == k then (k, v) else p) t) ha2]
            rw [find?_cons_true (fun p => p.1 == k2) a t ha2]
        | false =>
            rw [find?_cons_false (fun p => p.1 == k2) a
              (List.map (fun p => if p.1 == k then (k, v) else p) t) ha2]
            rw [find?_cons_false (fun p => p.1 == k2) a t ha2, ih]

theorem getK_oset_self (o : Obj) (k : String) (v : JsVal) :
    getK (oset o k v) k = some v := by
  cases h : o.any (fun p => p.1 == k) with
  | true =>
      have ho : oset o k v = o.map (fun p => if p.1 == k then (k, v) else p) := by
        simp [oset, h]
      rw [ho]
      unfold getK
      rw [← List.map_reverse]
      have hrev : o.reverse.any (fun p => p.1 == k) = true := by
        simp only [List.any_reverse]
        exact h
      rw [find?_map_replace k v o.reverse hrev]
      rfl
  | false =>
      have ho : oset o k v = o ++ [(k, v)] := by
        simp [oset, h]
      rw [ho]
      unfold getK
      rw [List.reverse_append]
      simp [List.find?]

theorem getK_oset_ne (o : Obj) (k k2 : String) (v : JsVal) (h : k2 ≠ k) :
    getK (oset o k v) k2 = getK o k2 := by
  cases ha : o.any (fun p => p.1 == k) with
  | true =>
      have ho : oset o k v = o.map (fun p => if p.1 == k then (k, v) else p) := by
        simp [oset, ha]
      rw [ho]
      unfold getK
      rw [← List.map_reverse]
      rw [find?_map_replace_ne k k2 v h o.reverse]
  | false =>
      have ho : oset o k v = o ++ [(k, v)] := by
        simp [oset, ha]
      rw [ho]
      unfold getK
      rw [List.reverse_append]
      have hkk2 : (k == k2) = false := by
        cases hb : (k == k2) with
        | true => exact absurd (beq_iff_eq.mp hb).symm h
        | false => rfl
      simp [List.find?, hkk2]

theorem getK_spread (k : String) : ∀ (b a : Obj),
    getK (spread a b) k = oalt (getK b k) (getK a k) := by
  intro b
  induction b with
  | nil => intro a; simp [spread, getK_nil, oalt]
  | cons p t ih =>
      intro a
      have hs : spread a (p :: t) = spread (oset a p.1 p.2) t := rfl
      rw [hs, ih, getK_cons]
      cases hgt : getK t k with
      | some w => simp [oalt]
      | none =>
          by_cases hpk : (p.1 == k) = true
          · have hk : p.1 = k := beq_iff_eq.mp hpk
            rw [← hk, getK_oset_self]
            simp [oalt, hpk]
          · have hk : k ≠ p.1 := by
              intro he
              exact hpk (by simp [he])
            rw [getK_oset_ne a p.1 k p.2 hk]
            simp [oalt, hpk]

/-! ### waitForTracker lemmas -/

theorem waitRun_nil_of_never (avail : Nat → Bool) (h : ∀ t, avail t = false) :
    ∀ (fuel t : Nat), waitRun avail t fuel = [] := by
  intro fuel
  induction fuel with
  | zero => intro t; rfl
  | succ n ih => intro t; simp [waitRun, h t, ih]

theorem attemptTicks_len_of_never (avail : Nat → Bool) (h : ∀ t, avail t = false) :
    ∀ (fuel t : Nat), (attemptTicks avail t fuel).length = fuel := by
  intro fuel
  induction fuel with
  | zero => intro t; rfl
  | succ n ih => intro t; simp [attemptTicks, h t, ih]

theorem waitRun_single (avail : Nat → Bool) :
    ∀ (fuel t j : Nat), t ≤ j → j < t + fuel → avail j = true →
    ∃ i, waitRun avail t fuel = [i] ∧ avail i = true := by
  intro fuel
  induction fuel with
  | zero => intro t j h1 h2 _; exact absurd h2 (by omega)
  | succ n ih =>
      intro t j h1 h2 h3
      by_cases ht : avail t = true
      · exact ⟨t, by simp [waitRun, ht], ht⟩
      · have hne : j ≠ t := fun heq => ht (heq ▸ h3)
        obtain ⟨i, hi, hai⟩ := ih (t + 1) j (by omega) (by omega) h3
        exact ⟨i, by simp [waitRun, ht, hi], hai⟩

/-! ### isLoaded monotonicity and flip counting -/

theorem initEntrolytics_isLoaded (browser : Bool) (opts : EntrolyticsOptions)
    (s : BridgeState) :
    (initEntrolytics browser opts s).1.isLoaded = s.isLoaded
      ∨ (initEntrolytics browser opts s).1.isLoaded = true := by
  simp only [initEntrolytics]
  split_ifs <;> simp

theorem stepState_isLoaded_mono (s : BridgeState) (e : BridgeEvent)
    (h : s.isLoaded = true) : (stepState s e).isLoaded = true := by
  cases e with
  | evInit b opts =>
      rcases initEntrolytics_isLoaded b opts s with h2 | h2
      · simp only [stepState]
        rw [h2, h]
      · simp only [stepState]
        exact h2
  | evOnload => rfl
  | evSetTag t => exact h

theorem runEvents_isLoaded_mono (es : List BridgeEvent) :
    ∀ s : BridgeState, s.isLoaded = true → (runEvents s es).isLoaded = true := by
  induction es with
  | nil => intro s h; exact h
  | cons e t ih => intro s h; exact ih _ (stepState_isLoaded_mono s e h)

theorem flipsFrom_eq (es : List BridgeEvent) :
    ∀ s : BridgeState,
    flipsFrom s es
      = if s.isLoaded = false ∧ (runEvents s es).isLoaded = true then 1 else 0 := by
  induction es with
  | nil =>
      intro s
      cases h : s.isLoaded <;> simp [flipsFrom, runEvents, h]
  | cons e t ih =>
      intro s
      simp only [flipsFrom, runEvents]
      rw [ih (stepState s e)]
      cases h1 : s.isLoaded with
      | true =>
          have h2 := stepState_isLoaded_mono s e h1
          have h3 := runEvents_isLoaded_mono t _ h2
          simp [h1, h2, h3]
      | false =>
          cases h2 : (stepState s e).isLoaded with
          | true =>
              have h3 := runEvents_isLoaded_mono t _ h2
              simp [h1, h2, h3]
          | false =>
              simp [h1, h2]

/-! ### Concrete inputs used by the claim theorems -/

def emptyIdOptions : EntrolyticsOptions := { websiteId := "" }

def validOptions : EntrolyticsOptions := { websiteId := "site-1" }

def renameTransform : String → JsVal → Option JsVal :=
  fun _ _ => some (.vObj [("name", .vStr "renamed")])

def suppressTransform : String → JsVal → Option JsVal :=
  fun _ _ => none

def stateWithRename : BridgeState :=
  { initialState with
      initialized := true,
      currentOptions := some { websiteId := "site-1",
                               beforeSend := some renameTransform } }

def stateWithSuppress : BridgeState :=
  { initialState with
      initialized := true,
      currentOptions := some { websiteId := "site-1",
                               beforeSend := some suppressTransform } }

/-! ### Claim theorems -/

/-- Claim C1 counterexample: calling `initEntrolytics` with an empty
`websiteId` in a browser does throw, but the bridge state is NOT unchanged:
the initialization flag is set and the configuration is recorded (source
lines 77-79 run before the check on line 93), and a later call with a valid
configuration is a no-op rather than a first initialization. -/
theorem C1_counterexample :
    (initEntrolytics true emptyIdOptions initialState).2 = true
    ∧ (initEntrolytics true emptyIdOptions initialState).1.initialized = true
    ∧ (initEntrolytics true emptyIdOptions initialState).1.currentOptions
        = some emptyIdOptions
    ∧ initEntrolytics true validOptions
          (initEntrolytics true emptyIdOptions initialState).1
        = ((initEntrolytics true emptyIdOptions initialState).1, false) :=
  ⟨rfl, rfl, rfl, rfl⟩

/-- Claim C1 (amended): with an empty `websiteId` in a browser on an
uninitialized bridge, `initEntrolytics` raises the configuration error
synchronously and `isLoaded` is left as it was (false stays false), but the
initialization flag, the configuration and the tag are recorded before the
check, so every later `initEntrolytics` call — valid configuration included —
is a no-op rather than a first initialization. -/
theorem C1_empty_websiteId_partial_init (s : BridgeState)
    (opts : EntrolyticsOptions) (hinit : s.initialized = false)
    (hid : opts.websiteId = "") :
    initEntrolytics true opts s
      = ({ s with initialized := true, currentOptions := some opts,
                  currentTag := opts.tag }, true)
    ∧ (initEntrolytics true opts s).1.isLoaded = s.isLoaded
    ∧ ∀ opts2, initEntrolytics true opts2 (initEntrolytics true opts s).1
        = ((initEntrolytics true opts s).1, false) := by
  have h1 : initEntrolytics true opts s
      = ({ s with initialized := true, currentOptions := some opts,
                  currentTag := opts.tag }, true) := by
    simp [initEntrolytics, hinit, hid]
  refine ⟨h1, ?_, ?_⟩
  · rw [h1]
  · intro opts2
    rw [h1]
    simp [initEntrolytics]

/-- Witness for C1: the amended statement at the concrete empty-id options
and the load-time state. -/
theorem C1_witness :
    initEntrolytics true emptyIdOptions initialState
      = ({ initialState with
             initialized := true,
             currentOptions := some emptyIdOptions,
             currentTag := emptyIdOptions.tag }, true) :=
  (C1_empty_websiteId_partial_init initialState emptyIdOptions rfl rfl).1

/-- Claim C2: a `beforeSend` transform returning `null` does suppress the
send (first conjunct), but a transform that returns a replacement payload
does NOT have that payload forwarded: the call forwarded on source line 168
is `track(eventName, eventData)` with the original arguments, and the
transformed payload is discarded (second conjunct). -/
theorem C2_beforeSend_result_not_forwarded :
    trackEventBody stateWithSuppress "click" (some [("a", .vNum 1)]) = none
    ∧ trackEventBody stateWithRename "click" (some [("a", .vNum 1)])
        = some (.track2 "click" (some [("a", .vNum 1)])) :=
  ⟨rfl, rfl⟩

/-- Claim C3: after `setTag('ab-variant-2')`, a `trackEvent('click')` call
with the tracker available forwards `track('click', undefined)` — the tag is
written only onto the discarded local payload (source line 165), so the
forwarded payload carries no tag, contradicting the claim. -/
theorem C3_setTag_not_in_trackEvent_payload :
    trackEvent true (fun _ => true) 1 (setTag "ab-variant-2" initialState)
        "click" none
      = [.track2 "click" none] := rfl

/-- Claim C4: the first emission after attach DOES produce a `trackPageView`
call whenever its path is non-empty: the guard on source line 380 tests
`lastPath` after it has been reassigned to the current path, so it never
suppresses a browser pathname. Emissions `["/home"]` produce the call
`trackPageView("/home")`; `["/a","/b","/b","/c"]` produce three calls, the
first one included. -/
theorem C4_first_emission_tracked :
    pageViewRun ["/home"] = ["/home"]
    ∧ pageViewRun ["/a", "/b", "/b", "/c"] = ["/a", "/b", "/c"] :=
  ⟨rfl, rfl⟩

/-- Claim C5 counterexample: with url and referrer omitted, the forwarded
payload is the empty object: it carries no url key at all and in particular
is not built from the current location, which the code never reads. -/
theorem C5_counterexample :
    trackPageViewBody initialState none none = .track0 []
    ∧ getK (callPayload (trackPageViewBody initialState none none)) "url" = none :=
  ⟨rfl, rfl⟩

/-- Claim C5 (amended): a supplied non-empty url or referrer argument is
carried literally in the forwarded payload and the current tag is attached
when set to a non-empty string; an omitted (or empty) argument leaves its
key absent from the payload — the bridge does not consult the location, it
forwards the object as built and leaves defaulting to the tracker. -/
theorem C5_payload_keys (s : BridgeState) (url referrer : Option String) :
    getK (callPayload (trackPageViewBody s url referrer)) "url"
        = (match url with
           | some u => if u == "" then none else some (.vStr u)
           | none => none)
    ∧ getK (callPayload (trackPageViewBody s url referrer)) "referrer"
        = (match referrer with
           | some r => if r == "" then none else some (.vStr r)
           | none => none)
    ∧ getK (callPayload (trackPageViewBody s url referrer)) "tag"
        = (match s.currentTag with
           | some t => if t == "" then none else some (.vStr t)
           | none => none) := by
  have strip : ∀ (b : Bool) (q : Obj) (k2 k : String) (v : JsVal), k ≠ k2 →
      getK (if b = true then oset q k2 v else q) k = getK q k := by
    intro b q k2 k v hk
    cases b
    · simp
    · simp [getK_oset_ne q k2 k v hk]
  refine ⟨?_, ?_, ?_⟩
  · simp only [trackPageViewBody, callPayload]
    rw [strip _ _ _ _ _ (by decide : ("url" : String) ≠ "tag")]
    rw [strip _ _ _ _ _ (by decide : ("url" : String) ≠ "referrer")]
    rcases url with _ | u
    · simp [strTruthy, getK_nil]
    · by_cases hu : (u == "") = true
      · have hf : strTruthy (some u) = false := by simp [strTruthy, hu]
        simp [hf, getK_nil, hu]
      · have hf : strTruthy (some u) = true := by
          simp only [strTruthy, Bool.not_eq_true']
          simpa using hu
        simp [hf, getK_oset_self, hu]
  · simp only [trackPageViewBody, callPayload]
    rw [strip _ _ _ _ _ (by decide : ("referrer" : String) ≠ "tag")]
    rcases referrer with _ | r
    · have hf : strTruthy none = false := rfl
      rw [hf]
      simp only [Bool.false_eq_true, if_false]
      rw [strip _ _ _ _ _ (by decide : ("referrer" : String) ≠ "url")]
      rfl
    · by_cases hr : (r == "") = true
      · have hf : strTruthy (some r) = false := by simp [strTruthy, hr]
        rw [hf]
        simp only [Bool.false_eq_true, if_false]
        rw [strip _ _ _ _ _ (by decide : ("referrer" : String) ≠ "url")]
        simp [getK_nil, hr]
      · have hf : strTruthy (some r) = true := by
          simp only [strTruthy, Bool.not_eq_true']
          simpa using hr
        rw [hf]
        simp only [if_true]
        simp [getK_oset_self, hr]
  · simp only [trackPageViewBody, callPayload]
    rcases hct : s.currentTag with _ | t
    · have hf : strTruthy none = false := rfl
      rw [hf]
      simp only [Bool.false_eq_true, if_false]
      rw [strip _ _ _ _ _ (by decide : ("tag" : String) ≠ "referrer")]
      rw [strip _ _ _ _ _ (by decide : ("tag" : String) ≠ "url")]
      rfl
    · by_cases ht : (t == "") = true
      · have hf : strTruthy (some t) = false := by simp [strTruthy, ht]
        rw [hf]
        simp only [Bool.false_eq_true, if_false]
        rw [strip _ _ _ _ _ (by decide : ("tag" : String) ≠ "referrer")]
        rw [strip _ _ _ _ _ (by decide : ("tag" : String) ≠ "url")]
        simp [getK_nil, ht]
      · have hf : strTruthy (some t) = true := by
          simp only [strTruthy, Bool.not_eq_true']
          simpa using ht
        rw [hf]
        simp only [if_true]
        simp [getK_oset_self, ht]

/-- Claim C6: with a browser present, a call issued while the tracker is
absent forwards its callback's calls verbatim — hence exactly once — as soon
as the tracker is available at some tick within the page lifetime (in
particular `identify` forwards its single call exactly once); while the
tracker never appears nothing is forwarded, and the attempts continue at
every tick (one per `RETRY_DELAY_MS` milliseconds) with no retry bound. -/
theorem C6_forwards_exactly_once :
    (∀ (avail : Nat → Bool) (fuel k : Nat) (cb : List TrackerCall),
        avail k = true → k < fuel → waitForTracker true avail fuel cb = cb)
    ∧ (∀ (avail : Nat → Bool) (fuel k : Nat) (d : Obj),
        avail k = true → k < fuel →
        identify true avail fuel d = [identifyBody d])
    ∧ (∀ (avail : Nat → Bool) (fuel : Nat) (cb : List TrackerCall),
        (∀ t, avail t = false) →
        waitForTracker true avail fuel cb = []
        ∧ (attemptTicks avail 0 fuel).length = fuel) := by
  have hmain : ∀ (avail : Nat → Bool) (fuel k : Nat) (cb : List TrackerCall),
      avail k = true → k < fuel → waitForTracker true avail fuel cb = cb := by
    intro avail fuel k cb hk hfuel
    obtain ⟨i, hi, _⟩ := waitRun_single avail fuel 0 k (Nat.zero_le k) (by omega) hk
    simp [waitForTracker, hi]
  refine ⟨hmain, ?_, ?_⟩
  · intro avail fuel k d hk hfuel
    exact hmain avail fuel k [identifyBody d] hk hfuel
  · intro avail fuel cb hnever
    refine ⟨?_, attemptTicks_len_of_never avail hnever fuel 0⟩
    simp [waitForTracker, waitRun_nil_of_never avail hnever fuel 0]

/-- Witness for C6: the tracker is installed at retry tick 3 of a page that
lives 5 ticks; the call forwards exactly once. -/
theorem C6_witness :
    waitForTracker true (fun t => t == 3) 5 [.identifyCall []] = [.identifyCall []]
    ∧ identify true (fun t => t == 3) 5 [] = [identifyBody []] :=
  ⟨C6_forwards_exactly_once.1 (fun t => t == 3) 5 3 [.identifyCall []]
      (by decide) (by decide),
   C6_forwards_exactly_once.2.1 (fun t => t == 3) 5 3 [] (by decide) (by decide)⟩

/-- Claim C7 counterexample: `setTag` performs no environment check (source
lines 274-276 have no window guard), so even with no browser present it
changes bridge state: the current tag is recorded. -/
theorem C7_counterexample :
    (setTag "x" initialState).currentTag ≠ initialState.currentTag := by
  simp [setTag, initialState]

/-- Claim C7 (amended): outside a browser no public operation raises;
`initEntrolytics` and all forwarding operations are silent no-ops, but
`setTag` is not state-preserving: it records the tag unconditionally in any
environment. -/
theorem C7_non_browser_behaviour :
    (∀ (opts : EntrolyticsOptions) (s : BridgeState),
        initEntrolytics false opts s = (s, false))
    ∧ (∀ (avail : Nat → Bool) (fuel : Nat) (s : BridgeState) (n : String)
        (d : Option Obj), trackEvent false avail fuel s n d = [])
    ∧ (∀ (avail : Nat → Bool) (fuel : Nat) (s : BridgeState) (n : String)
        (rev : ℚ) (cur : String) (d : Option Obj),
        trackRevenue false avail fuel s n rev cur d = [])
    ∧ (∀ (avail : Nat → Bool) (fuel : Nat) (u : String) (d : Option Obj),
        trackOutboundLink false avail fuel u d = [])
    ∧ (∀ (avail : Nat → Bool) (fuel : Nat) (d : Obj),
        identify false avail fuel d = [])
    ∧ (∀ (avail : Nat → Bool) (fuel : Nat) (uid : String) (tr : Option Obj),
        identifyUser false avail fuel uid tr = [])
    ∧ (∀ (avail : Nat → Bool) (fuel : Nat) (s : BridgeState)
        (u r : Option String), trackPageView false avail fuel s u r = [])
    ∧ (∀ (t : String) (s : BridgeState),
        setTag t s = { s with currentTag := some t }) :=
  ⟨fun _ _ => rfl, fun _ _ _ _ _ => rfl, fun _ _ _ _ _ _ _ => rfl,
   fun _ _ _ _ => rfl, fun _ _ _ => rfl, fun _ _ _ _ => rfl,
   fun _ _ _ _ _ => rfl, fun _ _ => rfl⟩

/-- Claim C8: after a successful initialization every later
`initEntrolytics` call, with any configuration, is a complete no-op (state,
configuration and script list unchanged, no error raised), and the
`isLoaded` indicator flips from false to true at most once along every
event trace — exactly once along any trace from the load-time state that
ends loaded. -/
theorem C8_second_init_noop_loaded_flips_once :
    (∀ (opts : EntrolyticsOptions) (s : BridgeState), s.initialized = true →
        initEntrolytics true opts s = (s, false))
    ∧ (∀ (s : BridgeState) (es : List BridgeEvent), flipsFrom s es ≤ 1)
    ∧ (∀ es : List BridgeEvent, (runEvents initialState es).isLoaded = true →
        flipsFrom initialState es = 1) := by
  refine ⟨?_, ?_, ?_⟩
  · intro opts s h
    simp [initEntrolytics, h]
  · intro s es
    rw [flipsFrom_eq es s]
    split
    · exact Nat.le_refl 1
    · exact Nat.zero_le 1
  · intro es h
    rw [flipsFrom_eq es initialState, if_pos ⟨rfl, h⟩]

/-- Witness for C8: a concrete first initialization followed by the script
load event; the second call is a no-op and `isLoaded` flips exactly once. -/
theorem C8_witness :
    initEntrolytics true validOptions
        (initEntrolytics true validOptions initialState).1
      = ((initEntrolytics true validOptions initialState).1, false)
    ∧ flipsFrom initialState [.evInit true validOptions, .evOnload] = 1 :=
  ⟨C8_second_init_noop_loaded_flips_once.1 validOptions
      (initEntrolytics true validOptions initialState).1 rfl,
   C8_second_init_noop_loaded_flips_once.2.2
      [.evInit true validOptions, .evOnload] rfl⟩

/-- Claim C9: with the tracker available and no tag set,
`trackRevenue('purchase', 99.99, 'USD', \x7bproductId: 'p1'\x7d)` forwards
`track('purchase', \x7bproductId:'p1', revenue:99.99, currency:'USD'\x7d)`;
with a non-empty tag set the same payload additionally carries the tag. -/
theorem C9_trackRevenue_payload :
    trackRevenueBody initialState "purchase" (9999 / 100) "USD"
        (some [("productId", .vStr "p1")])
      = .track2 "purchase" (some [("productId", .vStr "p1"),
          ("revenue", .vNum (9999 / 100)), ("currency", .vStr "USD")])
    ∧ ∀ t : String, (t == "") = false →
        trackRevenueBody { initialState with currentTag := some t } "purchase"
            (9999 / 100) "USD" (some [("productId", .vStr "p1")])
          = .track2 "purchase" (some [("productId", .vStr "p1"),
              ("revenue", .vNum (9999 / 100)), ("currency", .vStr "USD"),
              ("tag", .vStr t)]) := by
  refine ⟨rfl, ?_⟩
  intro t ht
  simp [trackRevenueBody, strTruthy, ht, oset]

/-- Witness for C9: the tagged conjunct at the concrete tag
`"ab-variant-2"`. -/
theorem C9_witness :
    trackRevenueBody { initialState with currentTag := some "ab-variant-2" }
        "purchase" (9999 / 100) "USD" (some [("productId", .vStr "p1")])
      = .track2 "purchase" (some [("productId", .vStr "p1"),
          ("revenue", .vNum (9999 / 100)), ("currency", .vStr "USD"),
          ("tag", .vStr "ab-variant-2")]) :=
  C9_trackRevenue_payload.2 "ab-variant-2" (by decide)

/-- Claim C10: `identifyUser(userId, traits)` forwards exactly the object
obtained by placing the identifier under "id" and spreading the traits over
it; reading "id" from the forwarded object yields the traits' "id" value
when the traits carry one (the trait overrides the argument) and the userId
otherwise. -/
theorem C10_identifyUser_traits_override :
    (∀ (uid : String) (traits : Obj),
        identifyUserBody uid (some traits)
          = .identifyCall (spread [("id", .vStr uid)] traits))
    ∧ (∀ (uid : String) (traits : Obj),
        getK (callPayload (identifyUserBody uid (some traits))) "id"
          = oalt (getK traits "id") (some (.vStr uid))) := by
  refine ⟨fun _ _ => rfl, ?_⟩
  intro uid traits
  have h : callPayload (identifyUserBody uid (some traits))
      = spread [("id", .vStr uid)] traits := rfl
  rw [h, getK_spread]
  congr 1

end EntroSvelte
